import Mathlib

set_option allowUnsafeReducibility true in
attribute [semireducible] Rat.add Rat.mul Rat.sub Rat.inv

/-!
Verification of the gold daily-briefing core (indicator engine, signal
classifier, plan-level builder) against its specification.

The development shallowly embeds the Python sources:
  - src/indicators.py   (rsi, ema, macd, atr, enrich_indicators)
  - src/build_report.py (traffic_light_logic, build_plan_text)
Machine floats are modelled by exact rationals (Rat); pandas NaN /
missing values are modelled by Option; a raised exception is modelled
by Except.error.  Purely presentational output (formatted bullet
strings, the fixed narrative/watchlist/rules text) carries no numeric
content beyond what is modelled and is omitted from the result records.
-/

namespace Gold

/-! ## News items and keyword scoring (build_report.traffic_light_logic) -/

/-- NewsItem: the dictionaries produced by news.fetch_news.  Every field is
optional: the classifier reads only the title via n.get("title"). -/
structure NewsItem where
  source : Option String := none
  title : Option String := none
  url : Option String := none
  published : Option String := none
  summary : Option String := none
deriving DecidableEq, Repr

/-- Python substring containment k in t over character lists. -/
def strIn (k : List Char) : List Char → Bool
  | [] => k.isPrefixOf []
  | c :: t2 => k.isPrefixOf (c :: t2) || strIn k t2

/-- kwIn k t: the keyword k occurs in the (already lower-cased) title t. -/
def kwIn (k : String) (t : List Char) : Bool := strIn k.data t

/-- Negative keyword list of traffic_light_logic. -/
def neg_kw : List String :=
  ["hawkish", "rate hike", "higher yields", "strong dollar", "usd rises", "risk-on"]

/-- Positive keyword list of traffic_light_logic. -/
def pos_kw : List String :=
  ["dovish", "rate cut", "recession", "geopolitical", "safe haven", "inflation", "war", "conflict"]

/-- Lower-cased characters of an optional title: (n.get("title") or "").lower(). -/
def titleChars (n : NewsItem) : List Char :=
  (n.title.getD "").data.map Char.toLower

/-- One iteration of the news-scoring loop body: add 1 per positive keyword
found in the lower-cased title, subtract 1 per negative keyword found. -/
def itemScoreStep (score : Int) (n : NewsItem) : Int :=
  let t := titleChars n
  let s1 := pos_kw.foldl (fun s k => if kwIn k t then s + 1 else s) score
  neg_kw.foldl (fun s k => if kwIn k t then s - 1 else s) s1

/-- The news score accumulated over all items, starting from 0. -/
def newsScore (news : List NewsItem) : Int := news.foldl itemScoreStep 0

/-- Per-item score value: positive-keyword matches minus negative-keyword
matches of the item's lower-cased title. -/
def itemValue (n : NewsItem) : Int :=
  let t := titleChars n
  (pos_kw.countP (fun k => kwIn k t) : Int) - (neg_kw.countP (fun k => kwIn k t) : Int)

/-! ## Rolling-window infrastructure (pandas rolling / bfill semantics) -/

/-- The trailing window of length period ending at index i. -/
def windowAt (period : Nat) (xs : List α) (i : Nat) : List α :=
  (xs.drop (i + 1 - period)).take period

/-- pandas Series.rolling(period).mean() over a fully defined series:
defined (as the arithmetic mean of the trailing window) from index
period−1 on, undefined before. -/
def rollMean (period : Nat) (xs : List Rat) : List (Option Rat) :=
  (List.range xs.length).map (fun i =>
    if period ≤ i + 1 then some ((windowAt period xs i).sum / (period : Rat)) else none)

/-- pandas rolling(period).mean() over a series that may contain NaN
(min_periods defaults to the window size, so one NaN in the window makes
the mean NaN). -/
def rollMeanO (period : Nat) (xs : List (Option Rat)) : List (Option Rat) :=
  (List.range xs.length).map (fun i =>
    if period ≤ i + 1 then
      match (windowAt period xs i).mapM id with
      | some w => some (w.sum / (period : Rat))
      | none => none
    else none)

/-- First defined value of an optional series, if any. -/
def firstSome : List (Option α) → Option α
  | [] => none
  | some v :: _ => some v
  | none :: xs => firstSome xs

/-- pandas Series.bfill(): every NaN is replaced by the next defined value
after it (those with no later defined value stay NaN). -/
def bfill : List (Option α) → List (Option α)
  | [] => []
  | x :: xs =>
    (match x with
     | some v => some v
     | none => firstSome xs) :: bfill xs

/-! ## Indicator engine (indicators.py) -/

/-- Per-step gains of indicators.rsi: delta.where(delta > 0, 0.0).
The first delta is NaN, and NaN > 0 is false, so position 0 holds 0. -/
def gains (close : List Rat) : List Rat :=
  match close with
  | [] => []
  | _ :: _ =>
    0 :: List.zipWith (fun a b => if 0 < a - b then a - b else 0) (close.drop 1) close

/-- Per-step losses of indicators.rsi: (-delta.where(delta < 0, 0.0)). -/
def losses (close : List Rat) : List Rat :=
  match close with
  | [] => []
  | _ :: _ =>
    0 :: List.zipWith (fun a b => if a - b < 0 then b - a else 0) (close.drop 1) close

/-- rsi before back-filling: rs = avg_gain / avg_loss with an avg_loss of 0
replaced by NaN, out = 100 − 100/(1+rs); NaN propagates. -/
def rsiPre (close : List Rat) (period : Nat) : List (Option Rat) :=
  List.zipWith
    (fun go lo =>
      match go, lo with
      | some gv, some lv =>
        if lv = 0 then none else some (100 - 100 / (1 + gv / lv))
      | _, _ => none)
    (rollMean period (gains close)) (rollMean period (losses close))

/-- indicators.rsi: the RSI column, back-filled. -/
def rsi (close : List Rat) (period : Nat) : List (Option Rat) :=
  bfill (rsiPre close period)

/-- Tail of indicators.ema: y_i = (1−α)·y_{i−1} + α·x_i. -/
def emaGo (a : Rat) (y : Rat) : List Rat → List Rat
  | [] => []
  | x :: xs =>
    let y2 := (1 - a) * y + a * x
    y2 :: emaGo a y2 xs

/-- indicators.ema: series.ewm(span=span, adjust=False).mean(), seeded at the
first observation with α = 2/(span+1). -/
def ema (xs : List Rat) (span : Nat) : List Rat :=
  match xs with
  | [] => []
  | x :: rest => x :: emaGo (2 / ((span : Rat) + 1)) x rest

/-- indicators.macd: MACD line, signal line, histogram. -/
def macd (close : List Rat) (fast : Nat := 12) (slow : Nat := 26) (signal : Nat := 9) :
    List Rat × List Rat × List Rat :=
  let macd_line := List.zipWith (fun a b => a - b) (ema close fast) (ema close slow)
  let signal_line := ema macd_line signal
  let hist := List.zipWith (fun a b => a - b) macd_line signal_line
  (macd_line, signal_line, hist)

/-- PricePoint: one OHLCV row of the price series. -/
structure PricePoint where
  open_ : Rat := 0
  high : Rat
  low : Rat
  close : Rat
  volume : Rat := 0
deriving DecidableEq, Repr

/-- True range per step of indicators.atr.  Row 0 has no previous close, so
its |high−prev_close| and |low−prev_close| entries are NaN and the row-wise
max (which skips NaN) degenerates to high−low. -/
def trueRange (rows : List PricePoint) : List Rat :=
  match rows with
  | [] => []
  | r0 :: _ =>
    (r0.high - r0.low) ::
      List.zipWith
        (fun cur prev =>
          max (cur.high - cur.low) (max |cur.high - prev.close| |cur.low - prev.close|))
        (rows.drop 1) rows

/-- indicators.atr: rolling mean of the true range, back-filled. -/
def atr (rows : List PricePoint) (period : Nat) : List (Option Rat) :=
  bfill (rollMean period (trueRange rows))

/-! ## Signal classifier (build_report.traffic_light_logic) -/

/-- Row: the latest-row view the classifier reads — the close plus the
indicator columns, each possibly NaN/absent. -/
structure Row where
  close : Rat
  ma20 : Option Rat := none
  ma50 : Option Rat := none
  rsi14 : Option Rat := none
  macdHist : Option Rat := none
  atr14 : Option Rat := none
deriving DecidableEq, Repr

/-- indicators.enrich_indicators restricted to the columns the classifier and
plan builder consume (MACD line and signal line are computed but only the
histogram is read downstream). -/
def enrich_indicators (rows : List PricePoint) : List Row :=
  let closes := rows.map PricePoint.close
  let ma20 := rollMean 20 closes
  let ma50 := rollMean 50 closes
  let rsi14 := rsi closes 14
  let hist := (macd closes).2.2
  let atr14 := atr rows 14
  (List.range rows.length).map (fun i =>
    { close := closes.getD i 0
      ma20 := ma20.getD i none
      ma50 := ma50.getD i none
      rsi14 := rsi14.getD i none
      macdHist := hist.get? i
      atr14 := atr14.getD i none })

/-- The classifier's only failure: reading df.iloc[-1] of an empty frame. -/
inductive TLError where
  | emptySeries
deriving DecidableEq, Repr

/-- Driver record: name, signal label, fixed note. -/
structure Driver where
  driver : String
  signal : String
  note : String
deriving DecidableEq, Repr

/-- Result of traffic_light_logic: verdict, summary, drivers, news score
(formatted bullet strings are presentation-only and carry the same numbers). -/
structure TLResult where
  trafficLight : String
  summary : String
  drivers : List Driver
  score : Int
deriving DecidableEq, Repr

/-- Body of traffic_light_logic after the latest row has been read and
defaulted: verdict/summary by first-match precedence, then the four drivers. -/
def classify (close ma20 ma50 rsi14 macd_hist atr14 : Rat)
    (atr_mean_50 : Option Rat) (score : Int) : TLResult :=
  let tlsum : String × String :=
    if (close > ma20 ∧ ma20 > ma50) ∧ (rsi14 ≥ 55 ∧ macd_hist > 0) ∧ score ≥ 0 then
      ("GREEN", "趋势与动量偏多，计划以回踩承接为主，严格控制波动风险。")
    else if (close < ma20 ∧ ma20 < ma50) ∧ (rsi14 ≤ 45 ∧ macd_hist < 0) ∧ score ≤ 0 then
      ("RED", "趋势与动量偏空，计划以反弹承压做空或观望为主，避免追单。")
    else
      ("NEUTRAL", "多空信号分歧，优先等待关键位确认，控制仓位与回撤。")
  { trafficLight := tlsum.1
    summary := tlsum.2
    drivers :=
      [{ driver := "Trend (MA20/MA50)"
         signal :=
           if close > ma20 ∧ ma20 > ma50 then "Bullish"
           else if close < ma20 ∧ ma20 < ma50 then "Bearish" else "Mixed"
         note := "价格相对均线位置与多空排列。" },
       { driver := "Momentum (RSI/MACD)"
         signal :=
           if rsi14 ≥ 55 ∧ macd_hist > 0 then "Bullish"
           else if rsi14 ≤ 45 ∧ macd_hist < 0 then "Bearish" else "Mixed"
         note := "RSI 与 MACD 柱体方向。" },
       { driver := "Volatility (ATR)"
         signal :=
           match atr_mean_50 with
           | some m => if atr14 > m then "High" else "Normal"
           | none => "Normal"
         note := "ATR 越高，越需要降杠杆与扩大止损。" },
       { driver := "Macro/News (headline heuristic)"
         signal :=
           if score > 0 then "Supportive" else if score < 0 then "Headwind" else "Neutral"
         note := "基于关键词的粗略文本规则。" }]
    score := score }

/-- atr_mean_50 of traffic_light_logic: the last value of the 50-period
rolling mean of the ATR14 column when at least 50 rows exist (NaN when any of
the last 50 ATR values is NaN), else the defaulted latest ATR itself. -/
def atrMean50 (df : List Row) (atr14 : Rat) : Option Rat :=
  if 50 ≤ df.length then (rollMeanO 50 (df.map Row.atr14)).getLastD none
  else some atr14

/-- build_report.traffic_light_logic: reads the latest row (error on an empty
frame), defaults missing indicator values, scores the news and classifies. -/
def traffic_light_logic (df : List Row) (news : List NewsItem) :
    Except TLError TLResult :=
  match df.getLast? with
  | none => Except.error TLError.emptySeries
  | some last =>
    let close := last.close
    let ma20 := last.ma20.getD close
    let ma50 := last.ma50.getD close
    let rsi14 := last.rsi14.getD 50
    let macd_hist := last.macdHist.getD 0
    let atr14 := last.atr14.getD 0
    let score := newsScore news
    Except.ok (classify close ma20 ma50 rsi14 macd_hist atr14 (atrMean50 df atr14) score)

/-! ## Plan text builder (build_report.build_plan_text) -/

/-- The numeric core of build_report.build_plan_text: the latest row's
resistance R1 = close + 0.8·ATR14 and support S1 = close − 0.8·ATR14, the ATR
defaulting to 0 when NaN (the surrounding narrative, watchlist, rules and
risk text is fixed boilerplate carrying only these two numbers). -/
def build_plan_levels (df : List Row) : Except TLError (Rat × Rat) :=
  match df.getLast? with
  | none => Except.error TLError.emptySeries
  | some last =>
    let close := last.close
    let a := last.atr14.getD 0
    Except.ok (close + (8 / 10) * a, close - (8 / 10) * a)

/-! ## Concrete fixtures used by witnesses and counterexamples -/

/-- Headline from the spec's test battery, matching dovish and recession. -/
def item1 : NewsItem := { title := some "Fed turns dovish amid recession fears" }

/-- Headline from the spec's test battery, matching hawkish, rate hike and
strong dollar. -/
def item2 : NewsItem := { title := some "Hawkish Fed sparks rate hike bets, strong dollar rises" }

/-- A strictly increasing 15-point close series (every delta is a gain). -/
def c15 : List Rat := [1, 2, 3, 4, 5, 6, 7, 8, 9, 10, 11, 12, 13, 14, 15]

/-- A 14-point close series with a single initial loss. -/
def c14 : List Rat := [2, 1, 1, 1, 1, 1, 1, 1, 1, 1, 1, 1, 1, 1]

/-- A 30-point close series with losses only at steps 1 and 28, so the RSI is
defined at positions 13–14 and 28–29 and undefined at 15–27 before filling. -/
def c30 : List Rat :=
  [10, 9, 10, 11, 12, 13, 14, 15, 16, 17, 18, 19, 20, 21, 22, 23, 24, 25, 26, 27,
   28, 29, 30, 31, 32, 33, 34, 35, 34, 35]

/-- 14 price rows whose first row has high < low (malformed OHLC). -/
def rows14 : List PricePoint :=
  { high := 0, low := 100, close := 0 } ::
    List.replicate 13 { high := 0, low := 0, close := 0 }

/-- 14 well-formed price rows with constant range 1. -/
def rows14ok : List PricePoint :=
  List.replicate 14 { high := 1, low := 0, close := 0 }

/-- A latest row realizing the spec's support/resistance example. -/
def row2000 : Row := { close := 2000, atr14 := some 10 }

/-- A latest row where trend and momentum are both up. -/
def rowG : Row :=
  { close := 3, ma20 := some 2, ma50 := some 1, rsi14 := some 60,
    macdHist := some 1, atr14 := some 1 }

/-- A latest row with every indicator column undefined. -/
def rowBare : Row := { close := 5 }

/-- A single well-formed price point; enriching the one-row series [pt1]
leaves MA20/MA50/RSI14/ATR14 undefined but defines MACDHist (= 0, since the
EMAs are seeded at the first observation). -/
def pt1 : PricePoint := { open_ := 5, high := 6, low := 4, close := 5, volume := 0 }

/-! ## Shared lemmas about the embedded operations -/

theorem zipWith_mem {f : α → β → γ} {as : List α} {bs : List β} {x : γ}
    (h : x ∈ List.zipWith f as bs) : ∃ u v, u ∈ as ∧ v ∈ bs ∧ x = f u v := by
  induction as generalizing bs with
  | nil => simp [List.zipWith] at h
  | cons a as ih =>
    cases bs with
    | nil => simp [List.zipWith] at h
    | cons b bs =>
      simp only [List.zipWith, List.mem_cons] at h
      rcases h with h | h
      · exact ⟨a, b, List.mem_cons_self _ _, List.mem_cons_self _ _, h⟩
      · rcases ih h with ⟨u, v, hu, hv, hx⟩
        exact ⟨u, v, List.mem_cons_of_mem _ hu, List.mem_cons_of_mem _ hv, hx⟩

theorem zipWith_get? (f : α → β → γ) (as : List α) (bs : List β) (i : Nat) :
    (List.zipWith f as bs).get? i =
      (as.get? i).bind (fun a => (bs.get? i).map (f a)) := by
  induction as generalizing bs i with
  | nil => simp
  | cons a as ih =>
    cases bs with
    | nil => simp
    | cons b bs =>
      cases i with
      | zero => rfl
      | succ j => simpa using ih bs j

theorem windowAt_subset {x : α} {p : Nat} {xs : List α} {i : Nat}
    (h : x ∈ windowAt p xs i) : x ∈ xs :=
  List.mem_of_mem_drop (List.mem_of_mem_take h)

theorem rollMean_length (p : Nat) (xs : List Rat) :
    (rollMean p xs).length = xs.length := by
  simp [rollMean]

theorem rollMean_get? (p : Nat) (xs : List Rat) (i : Nat) (h : i < xs.length) :
    (rollMean p xs).get? i =
      some (if p ≤ i + 1 then some ((windowAt p xs i).sum / (p : Rat)) else none) := by
  simp [rollMean, List.get?_map, List.get?_range, h]

theorem rollMean_nonneg {p : Nat} {xs : List Rat} {m : Rat}
    (hxs : ∀ x ∈ xs, 0 ≤ x) (hm : some m ∈ rollMean p xs) : 0 ≤ m := by
  rcases List.mem_map.mp hm with ⟨i, _, hi⟩
  by_cases hp : p ≤ i + 1
  · simp only [hp, if_true, Option.some.injEq] at hi
    subst hi
    apply div_nonneg
    · exact List.sum_nonneg fun x hx => hxs x (windowAt_subset hx)
    · positivity
  · simp [hp] at hi

theorem firstSome_mem {xs : List (Option α)} {v : α}
    (h : firstSome xs = some v) : some v ∈ xs := by
  induction xs with
  | nil => simp [firstSome] at h
  | cons x xs ih =>
    cases x with
    | some w => simp [firstSome] at h; simp [h]
    | none => exact List.mem_cons_of_mem _ (ih h)

theorem bfill_mem {xs : List (Option α)} {v : α}
    (h : some v ∈ bfill xs) : some v ∈ xs := by
  induction xs with
  | nil => simp [bfill] at h
  | cons x xs ih =>
    simp only [bfill, List.mem_cons] at h
    rcases h with h | h
    · cases x with
      | some w => simp at h; simp [h]
      | none => exact List.mem_cons_of_mem _ (firstSome_mem h.symm)
    · exact List.mem_cons_of_mem _ (ih h)

theorem bfill_length (xs : List (Option α)) : (bfill xs).length = xs.length := by
  induction xs with
  | nil => rfl
  | cons x xs ih => simp [bfill, ih]

theorem bfill_getD (xs : List (Option α)) (i : Nat) (h : i < xs.length) :
    (bfill xs).getD i none = firstSome (xs.drop i) := by
  induction xs generalizing i with
  | nil => simp at h
  | cons x xs ih =>
    cases i with
    | zero => cases x <;> rfl
    | succ j =>
      have hj : j < xs.length := by simpa using h
      simpa [bfill, List.getD] using ih j hj

theorem getD_none_get? (xs : List (Option α)) (i : Nat) :
    xs.getD i none = (xs.get? i).getD none := by
  simp [List.getD, List.get?_eq_getElem?]

theorem gains_length (c : List Rat) : (gains c).length = c.length := by
  cases c with
  | nil => rfl
  | cons a as => simp [gains, List.length_zipWith]

theorem losses_length (c : List Rat) : (losses c).length = c.length := by
  cases c with
  | nil => rfl
  | cons a as => simp [losses, List.length_zipWith]

theorem gains_nonneg {c : List Rat} : ∀ x ∈ gains c, 0 ≤ x := by
  intro x hx
  cases c with
  | nil => simp [gains] at hx
  | cons a as =>
    simp only [gains, List.mem_cons] at hx
    rcases hx with hx | hx
    · simp [hx]
    · rcases zipWith_mem hx with ⟨u, v, _, _, hx⟩
      subst hx
      split
      · linarith
      · exact le_refl 0

theorem losses_nonneg {c : List Rat} : ∀ x ∈ losses c, 0 ≤ x := by
  intro x hx
  cases c with
  | nil => simp [losses] at hx
  | cons a as =>
    simp only [losses, List.mem_cons] at hx
    rcases hx with hx | hx
    · simp [hx]
    · rcases zipWith_mem hx with ⟨u, v, _, _, hx⟩
      subst hx
      split
      · linarith
      · exact le_refl 0

theorem rsiPre_length (c : List Rat) (p : Nat) : (rsiPre c p).length = c.length := by
  simp [rsiPre, List.length_zipWith, rollMean_length, gains_length, losses_length]

theorem rsiPre_bounds {c : List Rat} {p : Nat} {v : Rat}
    (hv : some v ∈ rsiPre c p) : 0 ≤ v ∧ v ≤ 100 := by
  rcases zipWith_mem hv with ⟨go, lo, hgo, hlo, heq⟩
  cases go with
  | none => cases lo <;> simp at heq
  | some gv =>
    cases lo with
    | none => simp at heq
    | some lv =>
      by_cases hz : lv = 0
      · simp [hz] at heq
      · simp only [hz, if_false, Option.some.injEq] at heq
        have hg : 0 ≤ gv := rollMean_nonneg gains_nonneg hgo
        have hl : 0 ≤ lv := rollMean_nonneg losses_nonneg hlo
        have hl2 : 0 < lv := lt_of_le_of_ne hl (Ne.symm hz)
        have hrs : 0 ≤ gv / lv := div_nonneg hg hl
        have hq1 : (100 : Rat) / (1 + gv / lv) ≤ 100 := div_le_self (by norm_num) (by linarith)
        have hq2 : (0 : Rat) < 100 / (1 + gv / lv) := by positivity
        constructor <;> [linarith [heq]; linarith [heq]]

theorem trueRange_length (rows : List PricePoint) :
    (trueRange rows).length = rows.length := by
  cases rows with
  | nil => rfl
  | cons r rs => simp [trueRange, List.length_zipWith]

theorem trueRange_nonneg {rows : List PricePoint}
    (hw : ∀ r ∈ rows, r.low ≤ r.high) : ∀ x ∈ trueRange rows, 0 ≤ x := by
  intro x hx
  cases rows with
  | nil => simp [trueRange] at hx
  | cons r rs =>
    simp only [trueRange, List.mem_cons] at hx
    rcases hx with hx | hx
    · have := hw r (List.mem_cons_self _ _)
      subst hx
      linarith
    · rcases zipWith_mem hx with ⟨u, v, _, _, hx⟩
      subst hx
      have h1 : (0 : Rat) ≤ |u.high - v.close| := abs_nonneg _
      have h2 : |u.high - v.close| ≤ max |u.high - v.close| |u.low - v.close| := le_max_left _ _
      have h3 : max |u.high - v.close| |u.low - v.close| ≤
          max (u.high - u.low) (max |u.high - v.close| |u.low - v.close|) := le_max_right _ _
      linarith

theorem newsScore_foldl (news : List NewsItem) (s : Int) :
    news.foldl itemScoreStep s = s + (news.map itemValue).sum := by
  induction news generalizing s with
  | nil => simp
  | cons n ns ih =>
    have hstep : ∀ t : Int, itemScoreStep t n = t + itemValue n := by
      intro t
      have hpos : ∀ (ks : List String) (u : Int),
          ks.foldl (fun x k => if kwIn k (titleChars n) then x + 1 else x) u =
            u + (ks.countP (fun k => kwIn k (titleChars n)) : Int) := by
        intro ks
        induction ks with
        | nil => intro u; simp
        | cons k ks ihk =>
          intro u
          by_cases hk : kwIn k (titleChars n) <;>
            simp [List.foldl_cons, List.countP_cons, hk, ihk] <;> ring
      have hneg : ∀ (ks : List String) (u : Int),
          ks.foldl (fun x k => if kwIn k (titleChars n) then x - 1 else x) u =
            u - (ks.countP (fun k => kwIn k (titleChars n)) : Int) := by
        intro ks
        induction ks with
        | nil => intro u; simp
        | cons k ks ihk =>
          intro u
          by_cases hk : kwIn k (titleChars n) <;>
            simp [List.foldl_cons, List.countP_cons, hk, ihk] <;> ring
      simp only [itemScoreStep, itemValue, hpos, hneg]
      ring
    simp only [List.foldl_cons, List.map_cons, List.sum_cons, hstep, ih]
    ring

theorem itemScoreStep_shift (s : Int) (n : NewsItem) :
    itemScoreStep s n = s + itemScoreStep 0 n := by
  have h1 := newsScore_foldl [n] s
  have h2 := newsScore_foldl [n] 0
  simp only [List.foldl_cons, List.foldl_nil] at h1 h2
  simp [h1, h2]

theorem classify_trafficLight (c m20 m50 r mh a : Rat) (am : Option Rat) (s : Int) :
    (classify c m20 m50 r mh a am s).trafficLight =
      if (c > m20 ∧ m20 > m50) ∧ (r ≥ 55 ∧ mh > 0) ∧ s ≥ 0 then "GREEN"
      else if (c < m20 ∧ m20 < m50) ∧ (r ≤ 45 ∧ mh < 0) ∧ s ≤ 0 then "RED"
      else "NEUTRAL" := by
  by_cases h1 : (c > m20 ∧ m20 > m50) ∧ (r ≥ 55 ∧ mh > 0) ∧ s ≥ 0
  · simp [classify, h1]
  · by_cases h2 : (c < m20 ∧ m20 < m50) ∧ (r ≤ 45 ∧ mh < 0) ∧ s ≤ 0
    · simp [classify, h1, h2]
    · simp [classify, h1, h2]

theorem classify_vol_signal (c m20 m50 r mh a : Rat) (am : Option Rat) (s : Int) :
    ((classify c m20 m50 r mh a am s).drivers.get? 2).map Driver.signal =
      some (match am with
            | some m => if a > m then "High" else "Normal"
            | none => "Normal") := rfl

/-! ## The claims -/

/-- C1: for every non-empty indicator-enriched series and every news list, the
verdict is determined by first-match precedence over the defaulted latest-row
values: GREEN iff close > MA20 > MA50 (strict) and RSI14 ≥ 55 and MACDHist > 0
and news score ≥ 0; otherwise RED iff close < MA20 < MA50 and RSI14 ≤ 45 and
MACDHist < 0 and score ≤ 0; otherwise NEUTRAL.  In particular, when trend_up,
momentum_up and score = 0 all hold, the verdict is GREEN, never NEUTRAL. -/
theorem C1_verdict_precedence (df : List Row) (news : List NewsItem) (last : Row)
    (h : df.getLast? = some last) :
    ∃ res, traffic_light_logic df news = Except.ok res ∧
      ((res.trafficLight = "GREEN" ↔
        ((last.close > last.ma20.getD last.close ∧
          last.ma20.getD last.close > last.ma50.getD last.close) ∧
         (last.rsi14.getD 50 ≥ 55 ∧ last.macdHist.getD 0 > 0) ∧ newsScore news ≥ 0)) ∧
       (res.trafficLight = "RED" ↔
        (¬ ((last.close > last.ma20.getD last.close ∧
             last.ma20.getD last.close > last.ma50.getD last.close) ∧
            (last.rsi14.getD 50 ≥ 55 ∧ last.macdHist.getD 0 > 0) ∧ newsScore news ≥ 0) ∧
         ((last.close < last.ma20.getD last.close ∧
           last.ma20.getD last.close < last.ma50.getD last.close) ∧
          (last.rsi14.getD 50 ≤ 45 ∧ last.macdHist.getD 0 < 0) ∧ newsScore news ≤ 0))) ∧
       (res.trafficLight = "NEUTRAL" ↔
        (¬ ((last.close > last.ma20.getD last.close ∧
             last.ma20.getD last.close > last.ma50.getD last.close) ∧
            (last.rsi14.getD 50 ≥ 55 ∧ last.macdHist.getD 0 > 0) ∧ newsScore news ≥ 0) ∧
         ¬ ((last.close < last.ma20.getD last.close ∧
             last.ma20.getD last.close < last.ma50.getD last.close) ∧
            (last.rsi14.getD 50 ≤ 45 ∧ last.macdHist.getD 0 < 0) ∧ newsScore news ≤ 0))) ∧
       (((last.close > last.ma20.getD last.close ∧
          last.ma20.getD last.close > last.ma50.getD last.close) ∧
         (last.rsi14.getD 50 ≥ 55 ∧ last.macdHist.getD 0 > 0) ∧ newsScore news = 0) →
        res.trafficLight = "GREEN")) := by
  simp only [traffic_light_logic, h]
  refine ⟨_, rfl, ?_⟩
  rw [classify_trafficLight]
  have hGR : ("GREEN" : String) ≠ "RED" := by decide
  have hGN : ("GREEN" : String) ≠ "NEUTRAL" := by decide
  have hRN : ("RED" : String) ≠ "NEUTRAL" := by decide
  by_cases h1 : (last.close > last.ma20.getD last.close ∧
      last.ma20.getD last.close > last.ma50.getD last.close) ∧
      (last.rsi14.getD 50 ≥ 55 ∧ last.macdHist.getD 0 > 0) ∧ newsScore news ≥ 0
  · simp only [h1, if_true]
    refine ⟨by simp [h1], by simp [hGR, h1], by simp [hGN, h1], fun _ => rfl⟩
  · by_cases h2 : (last.close < last.ma20.getD last.close ∧
        last.ma20.getD last.close < last.ma50.getD last.close) ∧
        (last.rsi14.getD 50 ≤ 45 ∧ last.macdHist.getD 0 < 0) ∧ newsScore news ≤ 0
    · simp only [h1, h2, if_true, if_false]
      refine ⟨by simp [hGR.symm, h1], by simp [h1, h2], by simp [hRN, h2], ?_⟩
      intro hz
      exact absurd ⟨hz.1, hz.2.1, by omega⟩ h1
    · simp only [h1, h2, if_false]
      refine ⟨by simp [hGN.symm, h1], by simp [hRN.symm, h1, h2], by simp [h1, h2], ?_⟩
      intro hz
      exact absurd ⟨hz.1, hz.2.1, by omega⟩ h1

/-- C1 witness: on a one-row series with trend and momentum up and an empty
news list (score 0), the classifier returns GREEN. -/
theorem C1_witness :
    ∃ res, traffic_light_logic [rowG] [] = Except.ok res ∧ res.trafficLight = "GREEN" := by
  obtain ⟨res, hok, _, _, _, himp⟩ := C1_verdict_precedence [rowG] [] rowG rfl
  exact ⟨res, hok, himp (by refine ⟨⟨?_, ?_⟩, ⟨?_, ?_⟩, rfl⟩ <;> decide)⟩

/-- C2: the news score is the sum over all items of the number of positive
keywords occurring as substrings of the lower-cased title minus the number of
negative keywords occurring, one title possibly matching several keywords; in
particular the dovish/recession title scores +2, the hawkish/rate-hike/strong-
dollar title scores −3, and a list containing both scores −1. -/
theorem C2_news_score :
    (∀ news : List NewsItem, newsScore news = (news.map itemValue).sum) ∧
    newsScore [item1] = 2 ∧ newsScore [item2] = -3 ∧ newsScore [item1, item2] = -1 := by
  refine ⟨fun news => ?_, by decide, by decide, by decide⟩
  simpa using newsScore_foldl news 0

/-- C3: the classifier signals its single precondition-violation error exactly
on the empty series (no latest row), and succeeds on every non-empty series. -/
theorem C3_empty_precondition (df : List Row) (news : List NewsItem) :
    (df = [] → traffic_light_logic df news = Except.error TLError.emptySeries) ∧
    (df ≠ [] → ∃ res, traffic_light_logic df news = Except.ok res) := by
  constructor
  · intro h
    subst h
    rfl
  · intro h
    obtain ⟨last, hl⟩ := Option.isSome_iff_exists.mp (List.getLast?_isSome.mpr h)
    exact ⟨_, by rw [traffic_light_logic, hl]⟩

/-- C3 witness: the empty series yields the precondition-violation error, and
a concrete one-row series succeeds. -/
theorem C3_witness :
    traffic_light_logic [] [] = Except.error TLError.emptySeries ∧
    ∃ res, traffic_light_logic [rowBare] [] = Except.ok res :=
  ⟨(C3_empty_precondition [] []).1 rfl,
   (C3_empty_precondition [rowBare] []).2 (by simp)⟩

/-- C4: on every non-empty series the classifier returns normally, reading
each of the five latest indicator values independently: whichever of MA20,
MA50, RSI14, MACDHist, ATR14 is undefined is substituted by the latest close,
the latest close, 50, 0 and 0 respectively, and whichever is defined is used
as stored — so the classifier never fails on a short history. -/
theorem C4_defaulting (df : List Row) (news : List NewsItem) (last : Row)
    (h : df.getLast? = some last) :
    ∃ ma20 ma50 rsi14 macd_hist atr14,
      traffic_light_logic df news =
        Except.ok (classify last.close ma20 ma50 rsi14 macd_hist atr14
          (atrMean50 df atr14) (newsScore news)) ∧
      ((last.ma20 = none → ma20 = last.close) ∧ ∀ v, last.ma20 = some v → ma20 = v) ∧
      ((last.ma50 = none → ma50 = last.close) ∧ ∀ v, last.ma50 = some v → ma50 = v) ∧
      ((last.rsi14 = none → rsi14 = 50) ∧ ∀ v, last.rsi14 = some v → rsi14 = v) ∧
      ((last.macdHist = none → macd_hist = 0) ∧ ∀ v, last.macdHist = some v → macd_hist = v) ∧
      ((last.atr14 = none → atr14 = 0) ∧ ∀ v, last.atr14 = some v → atr14 = v) := by
  refine ⟨last.ma20.getD last.close, last.ma50.getD last.close, last.rsi14.getD 50,
    last.macdHist.getD 0, last.atr14.getD 0, ?_, ?_, ?_, ?_, ?_, ?_⟩
  · simp only [traffic_light_logic, h]
  · exact ⟨fun hn => by rw [hn]; rfl, fun v hv => by rw [hv]; rfl⟩
  · exact ⟨fun hn => by rw [hn]; rfl, fun v hv => by rw [hv]; rfl⟩
  · exact ⟨fun hn => by rw [hn]; rfl, fun v hv => by rw [hv]; rfl⟩
  · exact ⟨fun hn => by rw [hn]; rfl, fun v hv => by rw [hv]; rfl⟩
  · exact ⟨fun hn => by rw [hn]; rfl, fun v hv => by rw [hv]; rfl⟩

/-- C4 witness: the genuinely enriched one-row series over pt1 (where
MACDHist = 0 is defined while MA20, MA50, RSI14 and ATR14 are undefined)
classifies without failing, substituting close/close/50 for the undefined
moving averages and RSI, 0 for the undefined ATR, and keeping the stored
MACDHist value 0. -/
theorem C4_witness :
    traffic_light_logic (enrich_indicators [pt1]) [] =
      Except.ok (classify 5 5 5 50 0 0
        (atrMean50 (enrich_indicators [pt1]) 0) (newsScore [])) := by
  obtain ⟨m20, m50, r14, mh, a14, hok, h20, h50, hr, hmh, ha⟩ :=
    C4_defaulting (enrich_indicators [pt1]) []
      { close := 5, macdHist := some 0 } (by decide)
  rw [hok, h20.1 rfl, h50.1 rfl, hr.1 rfl, hmh.2 0 rfl, ha.1 rfl]

/-- C5 counterexample: the strictly increasing series c15 has a price change
(its first two closes differ), yet the RSI14 column it produces still contains
undefined entries after back-filling — no window ever has a positive average
loss, so no position is ever defined.  This refutes the claim that the column
is fully defined for every series with at least one price change. -/
theorem C5_counterexample :
    c15.getD 0 0 ≠ c15.getD 1 0 ∧ none ∈ rsi c15 14 := by
  constructor
  · decide
  · decide

/-- C5 (amended): every defined value of the RSI14 column produced by the
indicator engine lies in [0, 100] (the full-definedness part of the original
claim fails, see the counterexample). -/
theorem C5_rsi_bounds (close : List Rat) (v : Rat)
    (hv : some v ∈ rsi close 14) : 0 ≤ v ∧ v ≤ 100 :=
  rsiPre_bounds (bfill_mem hv)

/-- C5 witness: the series c14 has the defined RSI value 0, which the theorem
places in [0, 100]. -/
theorem C5_witness : (0 : Rat) ≤ 0 ∧ (0 : Rat) ≤ 100 :=
  C5_rsi_bounds c14 0 (by decide)

/-- C6 counterexample: in the series c30, position 15 has rolling average
loss 0 and is therefore undefined before filling (and position 13, before it,
is defined), yet in the back-filled output position 15 is defined — pandas
bfill replaces every undefined entry that has a later defined value, not only
the leading ones.  This refutes the claim that such positions remain
undefined in the output. -/
theorem C6_counterexample :
    (rollMean 14 (losses c30)).getD 15 none = some 0 ∧
    (rsiPre c30 14).getD 13 none ≠ none ∧
    (rsiPre c30 14).getD 15 none = none ∧
    (rsi c30 14).getD 15 none ≠ none := by
  refine ⟨by decide, by decide, by decide, by decide⟩

/-- C6 (amended): at any position where the rolling average loss is 0 the RSI
value is undefined before filling (not infinite), and back-filling replaces
each position by the first defined value at or after it, so an undefined
position becomes defined whenever some later position is defined and remains
undefined only when none is. -/
theorem C6_rsi_backfill (close : List Rat) (i : Nat) (h : i < close.length) :
    ((rollMean 14 (losses close)).getD i none = some 0 →
      (rsiPre close 14).getD i none = none) ∧
    (rsi close 14).getD i none = firstSome ((rsiPre close 14).drop i) := by
  have hlen : i < (rsiPre close 14).length := by rw [rsiPre_length]; exact h
  constructor
  · intro h0
    have hil : i < (losses close).length := by rw [losses_length]; exact h
    have hget := rollMean_get? 14 (losses close) i hil
    have hgd : ((rollMean 14 (losses close)).get? i).getD none = some 0 := by
      rw [← getD_none_get?]
      exact h0
    rw [hget] at hgd
    simp only [Option.getD_some] at hgd
    have hcase : 14 ≤ i + 1 ∧ (windowAt 14 (losses close) i).sum / (14 : Rat) = 0 := by
      by_cases hp : 14 ≤ i + 1
      · refine ⟨hp, ?_⟩
        simpa [hp] using hgd
      · simp [hp] at hgd
    have hig : i < (gains close).length := by rw [gains_length]; exact h
    have hgget := rollMean_get? 14 (gains close) i hig
    have hpre : (rsiPre close 14).get? i = some none := by
      rw [rsiPre, zipWith_get?, hgget, hget]
      simp [hcase.1, hcase.2]
    rw [getD_none_get?, hpre]
    rfl
  · rw [rsi, bfill_getD _ i hlen]

/-- C6 witness: at position 15 of c30 the average loss is 0, the pre-fill
value is undefined, and the output equals the first defined value at or after
position 15. -/
theorem C6_witness :
    (rsiPre c30 14).getD 15 none = none ∧
    (rsi c30 14).getD 15 none = firstSome ((rsiPre c30 14).drop 15) :=
  ⟨(C6_rsi_backfill c30 15 (by decide)).1 (by decide),
   (C6_rsi_backfill c30 15 (by decide)).2⟩

/-- C7: the plan builder computes, from the latest row, resistance
R1 = close + 0.8·ATR14 and support S1 = close − 0.8·ATR14, with ATR14 taken
as 0 when undefined so that R1 = S1 = close in that case. -/
theorem C7_plan_levels (df : List Row) (last : Row) (h : df.getLast? = some last) :
    build_plan_levels df =
      Except.ok (last.close + (8 / 10) * last.atr14.getD 0,
        last.close - (8 / 10) * last.atr14.getD 0) ∧
    (last.atr14 = none → build_plan_levels df = Except.ok (last.close, last.close)) := by
  constructor
  · rw [build_plan_levels, h]
  · intro ha
    simp only [build_plan_levels, h, ha, Option.getD_none]
    simp

/-- C7 witness: close = 2000.00 and ATR14 = 10.00 yield exactly R1 = 2008.00
and S1 = 1992.00. -/
theorem C7_witness : build_plan_levels [row2000] = Except.ok (2008, 1992) :=
  ((C7_plan_levels [row2000] row2000 rfl).1).trans (congrArg Except.ok (by decide))

/-- C8: the Volatility driver is labeled High iff the latest ATR14 is
strictly greater than the (defined) 50-period rolling mean of the ATR14
column at the last position, which requires at least 50 rows; with fewer than
50 rows the latest ATR14 is compared against itself, so the label is Normal. -/
theorem C8_volatility (df : List Row) (news : List NewsItem) (last : Row)
    (h : df.getLast? = some last) :
    ∃ res, traffic_light_logic df news = Except.ok res ∧
      (((res.drivers.get? 2).map Driver.signal = some "High") ↔
        (50 ≤ df.length ∧ ∃ m, (rollMeanO 50 (df.map Row.atr14)).getLastD none = some m ∧
          last.atr14.getD 0 > m)) ∧
      (df.length < 50 → (res.drivers.get? 2).map Driver.signal = some "Normal") := by
  simp only [traffic_light_logic, h]
  refine ⟨_, rfl, ?_, ?_⟩
  · rw [classify_vol_signal]
    by_cases hlen : 50 ≤ df.length
    · simp only [atrMean50, hlen, if_true]
      cases hm : (rollMeanO 50 (df.map Row.atr14)).getLastD none with
      | none => simp
      | some m =>
        by_cases hgt : last.atr14.getD 0 > m
        · simp [hgt, hlen]
        · simp [hgt]
    · simp only [atrMean50, hlen, if_false]
      simp [hlen, lt_irrefl]
  · intro hlt
    rw [classify_vol_signal]
    have hlen : ¬ (50 ≤ df.length) := by omega
    simp [atrMean50, hlen, lt_irrefl]

/-- C8 witness: on a one-row series (fewer than 50 rows) the Volatility
driver is labeled Normal. -/
theorem C8_witness :
    ∃ res, traffic_light_logic [rowG] [] = Except.ok res ∧
      (res.drivers.get? 2).map Driver.signal = some "Normal" := by
  obtain ⟨res, hok, _, hn⟩ := C8_volatility [rowG] [] rowG rfl
  exact ⟨res, hok, hn (by decide)⟩

/-- C9 counterexample: on the malformed series rows14 (whose first row has
high < low) the ATR14 column contains the defined value −50/7 < 0, refuting
the claim for arbitrary input series. -/
theorem C9_counterexample :
    some (-50 / 7) ∈ atr rows14 14 ∧ (-50 / 7 : Rat) < 0 :=
  ⟨by decide, by decide⟩

/-- C9 (amended): on every series whose rows satisfy low ≤ high, every
defined value of the ATR14 column is nonnegative. -/
theorem C9_atr_nonneg (rows : List PricePoint)
    (hw : ∀ r ∈ rows, r.low ≤ r.high) (v : Rat) (hv : some v ∈ atr rows 14) :
    0 ≤ v :=
  rollMean_nonneg (trueRange_nonneg hw) (bfill_mem hv)

/-- C9 witness: the well-formed series rows14ok has the defined ATR value 1,
which the theorem shows nonnegative. -/
theorem C9_witness : (0 : Rat) ≤ 1 :=
  C9_atr_nonneg rows14ok (by decide) 1 (by decide)

/-- C10: the news score is additive over list concatenation, each item
contributing a value that depends only on its title, and an item with a
missing or empty title contributes 0. -/
theorem C10_score_additive :
    (∀ xs ys : List NewsItem, newsScore (xs ++ ys) = newsScore xs + newsScore ys) ∧
    (∀ (s : Int) (n : NewsItem), itemScoreStep s n = s + itemScoreStep 0 n) ∧
    (∀ a b : NewsItem, a.title = b.title → itemScoreStep 0 a = itemScoreStep 0 b) ∧
    (∀ a : NewsItem, a.title = none ∨ a.title = some "" → itemScoreStep 0 a = 0) := by
  refine ⟨?_, itemScoreStep_shift, ?_, ?_⟩
  · intro xs ys
    rw [newsScore, newsScore, newsScore, newsScore_foldl, newsScore_foldl, newsScore_foldl]
    simp
  · intro a b hab
    have ht : titleChars a = titleChars b := by rw [titleChars, titleChars, hab]
    simp only [itemScoreStep, ht]
  · intro a ha
    have ht : titleChars a = [] := by
      rcases ha with ha | ha <;> simp [titleChars, ha]
    simp only [itemScoreStep, ht]
    decide

/-- C10 witness: additivity at the two concrete headlines, and a titleless
item contributing 0. -/
theorem C10_witness :
    newsScore [item1, item2] = newsScore [item1] + newsScore [item2] ∧
    itemScoreStep 0 { title := none } = 0 :=
  ⟨C10_score_additive.1 [item1] [item2],
   C10_score_additive.2.2.2 { title := none } (Or.inl rfl)⟩

end Gold
